import Mathlib

/-!
Shallow embedding of the twigsnake leveled-logging facade.

The repository defines the same logger twice: package twigsnake exposes
type Logger, and package nlog (second unit) exposes type NLog.  Both wrap
Go's standard log package: each severity level owns one log.Logger and an
emission call first checks the mutable threshold, then delegates to the
matching log.Logger's Print / Printf / Println.

Modelling decisions, uniform throughout:
  - a Go io.Writer is identified by a Nat (the facade never reads or
    writes through it, it only stores and forwards the handle);
  - a log.Logger is its configuration triple (output handle, message
    prefix string, flag bits); Go flag constants keep their values,
    log.Lmsgprefix is spelled LmsgPfx here;
  - the variadic argument lists of Print / Printf / Println are abstracted
    into one opaque payload string: no claim depends on how the underlying
    primitive renders its arguments, only on whether delegation happens
    and to which sub-logger;
  - a delegated call is recorded as an Emission value (the sub-logger's
    configuration at call time, the print variant used, the payload);
    an emission method returns the receiver it leaves behind paired with
    the list of emissions it performed (empty when filtered out);
  - Go errors are Except String, mirroring errors.New.
-/

/-- Go log package flag constant log.Ldate. -/
def Ldate : Nat := 1

/-- Go log package flag constant log.Ltime. -/
def Ltime : Nat := 2

/-- Go log package flag constant log.Lmsgprefix (renamed here). -/
def LmsgPfx : Nat := 64

/-- Which of the three print primitives of Go's log.Logger was invoked. -/
inductive PrintKind where
  | print
  | printf
  | println
deriving DecidableEq, Repr

/-- Configuration state of one Go log.Logger: output writer handle,
message prefix, flag bits.  Go's SetOutput / SetPrefix / SetFlags mutate
exactly these three fields. -/
structure SubLogger where
  out : Nat
  pfx : String
  flags : Nat
deriving DecidableEq, Repr

/-- One delegated write: the sub-logger configuration in force at call
time, the print variant, and the opaque argument payload. -/
structure Emission where
  dest : Nat
  pfx : String
  flags : Nat
  kind : PrintKind
  payload : String
deriving DecidableEq, Repr

/-- Go log.New(dest, p, flag): build a log.Logger with the given output,
message prefix and flags. -/
def logNew (dest : Nat) (p : String) (flag : Nat) : SubLogger :=
  { out := dest, pfx := p, flags := flag }

/-- Go (l log.Logger).Print(v...): one write through l's configuration. -/
def SubLogger.Print (s : SubLogger) (payload : String) : Emission :=
  { dest := s.out, pfx := s.pfx, flags := s.flags, kind := PrintKind.print, payload := payload }

/-- Go (l log.Logger).Printf(format, v...): one write through l's configuration. -/
def SubLogger.Printf (s : SubLogger) (payload : String) : Emission :=
  { dest := s.out, pfx := s.pfx, flags := s.flags, kind := PrintKind.printf, payload := payload }

/-- Go (l log.Logger).Println(v...): one write through l's configuration. -/
def SubLogger.Println (s : SubLogger) (payload : String) : Emission :=
  { dest := s.out, pfx := s.pfx, flags := s.flags, kind := PrintKind.println, payload := payload }

/-- Go (l log.Logger).SetOutput(w). -/
def SubLogger.SetOutput (s : SubLogger) (w : Nat) : SubLogger :=
  { s with out := w }

/-- Go (l log.Logger).SetPrefix(p) (renamed here). -/
def SubLogger.setPfx (s : SubLogger) (p : String) : SubLogger :=
  { s with pfx := p }

/-- Go (l log.Logger).SetFlags(flag). -/
def SubLogger.SetFlags (s : SubLogger) (flag : Nat) : SubLogger :=
  { s with flags := flag }

/-- The eight RFC 5424 severity levels, used to index the 24 emission
entry points when stating properties uniformly. -/
inductive Severity where
  | emerg
  | alert
  | crit
  | error
  | warn
  | notice
  | info
  | debug
deriving DecidableEq, Repr

namespace Twigsnake

/-- twigsnake.LOG_EMERG. -/
def LOG_EMERG : Int := 0

/-- twigsnake.LOG_ALERT. -/
def LOG_ALERT : Int := 1

/-- twigsnake.LOG_CRIT. -/
def LOG_CRIT : Int := 2

/-- twigsnake.LOG_ERROR. -/
def LOG_ERROR : Int := 3

/-- twigsnake.LOG_WARN. -/
def LOG_WARN : Int := 4

/-- twigsnake.LOG_NOTICE. -/
def LOG_NOTICE : Int := 5

/-- twigsnake.LOG_INFO. -/
def LOG_INFO : Int := 6

/-- twigsnake.LOG_DEBUG. -/
def LOG_DEBUG : Int := 7

/-- Numeric rank of each severity, matching the iota block of the source. -/
def sevRank : Severity → Int
  | Severity.emerg => LOG_EMERG
  | Severity.alert => LOG_ALERT
  | Severity.crit => LOG_CRIT
  | Severity.error => LOG_ERROR
  | Severity.warn => LOG_WARN
  | Severity.notice => LOG_NOTICE
  | Severity.info => LOG_INFO
  | Severity.debug => LOG_DEBUG

/-- twigsnake.Logger: the mutable level plus one exported log.Logger per
severity. -/
structure Logger where
  logLevel : Int
  EmergLogger : SubLogger
  AlertLogger : SubLogger
  CritLogger : SubLogger
  ErrorLogger : SubLogger
  WarningLogger : SubLogger
  NoticeLogger : SubLogger
  InfoLogger : SubLogger
  DebugLogger : SubLogger
deriving DecidableEq, Repr

/-- twigsnake.checkLogLevel: error unless 0 <= lvl <= 7. -/
def checkLogLevel (lvl : Int) : Except String Unit :=
  if ¬ (lvl ≥ 0 ∧ lvl ≤ 7) then
    Except.error "invalid severity level"
  else
    Except.ok ()

/-- The struct literal returned by twigsnake.New on success: level, then
the eight log.New calls in field order. -/
def mkLogger (lvl : Int) (dest : Nat) : Logger :=
  { logLevel := lvl
    EmergLogger := logNew dest "[EMERG] " (Ldate ||| Ltime ||| LmsgPfx)
    AlertLogger := logNew dest "[ALERT] " (Ldate ||| Ltime ||| LmsgPfx)
    CritLogger := logNew dest "[CRIT] " (Ldate ||| Ltime ||| LmsgPfx)
    ErrorLogger := logNew dest "[ERROR] " (Ldate ||| Ltime ||| LmsgPfx)
    WarningLogger := logNew dest "[WARN] " (Ldate ||| Ltime ||| LmsgPfx)
    NoticeLogger := logNew dest "[NOTICE] " (Ldate ||| Ltime ||| LmsgPfx)
    InfoLogger := logNew dest "[INFO] " (Ldate ||| Ltime ||| LmsgPfx)
    DebugLogger := logNew dest "[DEBUG] " (Ldate ||| Ltime ||| LmsgPfx) }

/-- twigsnake.New: validate the level, then build the Logger whose eight
sub-loggers all write to dest with the default flags. -/
def New (lvl : Int) (dest : Nat) : Except String Logger :=
  match checkLogLevel lvl with
  | Except.error e => Except.error e
  | Except.ok _ => Except.ok (mkLogger lvl dest)

/-- twigsnake (l Logger).LogLevel: return the current level. -/
def Logger.LogLevel (l : Logger) : Int :=
  l.logLevel

/-- twigsnake (l Logger).SetLogLevel: validate, then store the level;
on error the receiver is unchanged. -/
def Logger.SetLogLevel (l : Logger) (lvl : Int) : Except String Unit × Logger :=
  match checkLogLevel lvl with
  | Except.error e => (Except.error e, l)
  | Except.ok _ => (Except.ok (), { l with logLevel := lvl })

/-- twigsnake (l Logger).Emerg: unconditional delegation to EmergLogger.Print. -/
def Logger.Emerg (l : Logger) (v : String) : Logger × List Emission :=
  (l, [l.EmergLogger.Print v])

/-- twigsnake (l Logger).Emergf: unconditional delegation to EmergLogger.Printf. -/
def Logger.Emergf (l : Logger) (v : String) : Logger × List Emission :=
  (l, [l.EmergLogger.Printf v])

/-- twigsnake (l Logger).Emergln: unconditional delegation to EmergLogger.Println. -/
def Logger.Emergln (l : Logger) (v : String) : Logger × List Emission :=
  (l, [l.EmergLogger.Println v])

/-- twigsnake (l Logger).Alert: delegate to AlertLogger.Print when
logLevel >= LOG_ALERT. -/
def Logger.Alert (l : Logger) (v : String) : Logger × List Emission :=
  if l.logLevel ≥ LOG_ALERT then (l, [l.AlertLogger.Print v]) else (l, [])

/-- twigsnake (l Logger).Alertf: delegate to AlertLogger.Printf when
logLevel >= LOG_ALERT. -/
def Logger.Alertf (l : Logger) (v : String) : Logger × List Emission :=
  if l.logLevel ≥ LOG_ALERT then (l, [l.AlertLogger.Printf v]) else (l, [])

/-- twigsnake (l Logger).Alertln: delegate to AlertLogger.Println when
logLevel >= LOG_ALERT. -/
def Logger.Alertln (l : Logger) (v : String) : Logger × List Emission :=
  if l.logLevel ≥ LOG_ALERT then (l, [l.AlertLogger.Println v]) else (l, [])

/-- twigsnake (l Logger).Crit: delegate to CritLogger.Print when
logLevel >= LOG_CRIT. -/
def Logger.Crit (l : Logger) (v : String) : Logger × List Emission :=
  if l.logLevel ≥ LOG_CRIT then (l, [l.CritLogger.Print v]) else (l, [])

/-- twigsnake (l Logger).Critf: delegate to CritLogger.Printf when
logLevel >= LOG_CRIT. -/
def Logger.Critf (l : Logger) (v : String) : Logger × List Emission :=
  if l.logLevel ≥ LOG_CRIT then (l, [l.CritLogger.Printf v]) else (l, [])

/-- twigsnake (l Logger).Critln: delegate to CritLogger.Println when
logLevel >= LOG_CRIT. -/
def Logger.Critln (l : Logger) (v : String) : Logger × List Emission :=
  if l.logLevel ≥ LOG_CRIT then (l, [l.CritLogger.Println v]) else (l, [])

/-- twigsnake (l Logger).Error: delegate to ErrorLogger.Print when
logLevel >= LOG_ERROR. -/
def Logger.Error (l : Logger) (v : String) : Logger × List Emission :=
  if l.logLevel ≥ LOG_ERROR then (l, [l.ErrorLogger.Print v]) else (l, [])

/-- twigsnake (l Logger).Errorf: delegate to ErrorLogger.Printf when
logLevel >= LOG_ERROR. -/
def Logger.Errorf (l : Logger) (v : String) : Logger × List Emission :=
  if l.logLevel ≥ LOG_ERROR then (l, [l.ErrorLogger.Printf v]) else (l, [])

/-- twigsnake (l Logger).Errorln: delegate to ErrorLogger.Println when
logLevel >= LOG_ERROR. -/
def Logger.Errorln (l : Logger) (v : String) : Logger × List Emission :=
  if l.logLevel ≥ LOG_ERROR then (l, [l.ErrorLogger.Println v]) else (l, [])

/-- twigsnake (l Logger).Warn: delegate to WarningLogger.Print when
logLevel >= LOG_WARN. -/
def Logger.Warn (l : Logger) (v : String) : Logger × List Emission :=
  if l.logLevel ≥ LOG_WARN then (l, [l.WarningLogger.Print v]) else (l, [])

/-- twigsnake (l Logger).Warnf: delegate to WarningLogger.Printf when
logLevel >= LOG_WARN. -/
def Logger.Warnf (l : Logger) (v : String) : Logger × List Emission :=
  if l.logLevel ≥ LOG_WARN then (l, [l.WarningLogger.Printf v]) else (l, [])

/-- twigsnake (l Logger).Warnln: delegate to WarningLogger.Println when
logLevel >= LOG_WARN. -/
def Logger.Warnln (l : Logger) (v : String) : Logger × List Emission :=
  if l.logLevel ≥ LOG_WARN then (l, [l.WarningLogger.Println v]) else (l, [])

/-- twigsnake (l Logger).Notice: delegate to NoticeLogger.Print when
logLevel >= LOG_NOTICE. -/
def Logger.Notice (l : Logger) (v : String) : Logger × List Emission :=
  if l.logLevel ≥ LOG_NOTICE then (l, [l.NoticeLogger.Print v]) else (l, [])

/-- twigsnake (l Logger).Noticef: delegate to NoticeLogger.Printf when
logLevel >= LOG_NOTICE. -/
def Logger.Noticef (l : Logger) (v : String) : Logger × List Emission :=
  if l.logLevel ≥ LOG_NOTICE then (l, [l.NoticeLogger.Printf v]) else (l, [])

/-- twigsnake (l Logger).Noticeln: delegate to NoticeLogger.Println when
logLevel >= LOG_NOTICE. -/
def Logger.Noticeln (l : Logger) (v : String) : Logger × List Emission :=
  if l.logLevel ≥ LOG_NOTICE then (l, [l.NoticeLogger.Println v]) else (l, [])

/-- twigsnake (l Logger).Info: delegate to InfoLogger.Print when
logLevel >= LOG_INFO. -/
def Logger.Info (l : Logger) (v : String) : Logger × List Emission :=
  if l.logLevel ≥ LOG_INFO then (l, [l.InfoLogger.Print v]) else (l, [])

/-- twigsnake (l Logger).Infof: delegate to InfoLogger.Printf when
logLevel >= LOG_INFO. -/
def Logger.Infof (l : Logger) (v : String) : Logger × List Emission :=
  if l.logLevel ≥ LOG_INFO then (l, [l.InfoLogger.Printf v]) else (l, [])

/-- twigsnake (l Logger).Infoln: delegate to InfoLogger.Println when
logLevel >= LOG_INFO. -/
def Logger.Infoln (l : Logger) (v : String) : Logger × List Emission :=
  if l.logLevel ≥ LOG_INFO then (l, [l.InfoLogger.Println v]) else (l, [])

/-- twigsnake (l Logger).Debug: delegate to DebugLogger.Print when
logLevel >= LOG_DEBUG. -/
def Logger.Debug (l : Logger) (v : String) : Logger × List Emission :=
  if l.logLevel ≥ LOG_DEBUG then (l, [l.DebugLogger.Print v]) else (l, [])

/-- twigsnake (l Logger).Debugf: delegate to DebugLogger.Printf when
logLevel >= LOG_DEBUG. -/
def Logger.Debugf (l : Logger) (v : String) : Logger × List Emission :=
  if l.logLevel ≥ LOG_DEBUG then (l, [l.DebugLogger.Printf v]) else (l, [])

/-- twigsnake (l Logger).Debugln: delegate to DebugLogger.Println when
logLevel >= LOG_DEBUG. -/
def Logger.Debugln (l : Logger) (v : String) : Logger × List Emission :=
  if l.logLevel ≥ LOG_DEBUG then (l, [l.DebugLogger.Println v]) else (l, [])

/-- The sub-logger field holding a given severity's log.Logger. -/
def Logger.subLoggerFor (l : Logger) : Severity → SubLogger
  | Severity.emerg => l.EmergLogger
  | Severity.alert => l.AlertLogger
  | Severity.crit => l.CritLogger
  | Severity.error => l.ErrorLogger
  | Severity.warn => l.WarningLogger
  | Severity.notice => l.NoticeLogger
  | Severity.info => l.InfoLogger
  | Severity.debug => l.DebugLogger

/-- Dispatch table over the 24 emission entry points of twigsnake.Logger:
pick the method named by severity and print variant and call it. -/
def Logger.emit (l : Logger) : Severity → PrintKind → String → Logger × List Emission
  | Severity.emerg, PrintKind.print, m => l.Emerg m
  | Severity.emerg, PrintKind.printf, m => l.Emergf m
  | Severity.emerg, PrintKind.println, m => l.Emergln m
  | Severity.alert, PrintKind.print, m => l.Alert m
  | Severity.alert, PrintKind.printf, m => l.Alertf m
  | Severity.alert, PrintKind.println, m => l.Alertln m
  | Severity.crit, PrintKind.print, m => l.Crit m
  | Severity.crit, PrintKind.printf, m => l.Critf m
  | Severity.crit, PrintKind.println, m => l.Critln m
  | Severity.error, PrintKind.print, m => l.Error m
  | Severity.error, PrintKind.printf, m => l.Errorf m
  | Severity.error, PrintKind.println, m => l.Errorln m
  | Severity.warn, PrintKind.print, m => l.Warn m
  | Severity.warn, PrintKind.printf, m => l.Warnf m
  | Severity.warn, PrintKind.println, m => l.Warnln m
  | Severity.notice, PrintKind.print, m => l.Notice m
  | Severity.notice, PrintKind.printf, m => l.Noticef m
  | Severity.notice, PrintKind.println, m => l.Noticeln m
  | Severity.info, PrintKind.print, m => l.Info m
  | Severity.info, PrintKind.printf, m => l.Infof m
  | Severity.info, PrintKind.println, m => l.Infoln m
  | Severity.debug, PrintKind.print, m => l.Debug m
  | Severity.debug, PrintKind.printf, m => l.Debugf m
  | Severity.debug, PrintKind.println, m => l.Debugln m

/-- Apply the print primitive named by a PrintKind to a sub-logger. -/
def printAs (s : SubLogger) : PrintKind → String → Emission
  | PrintKind.print, m => s.Print m
  | PrintKind.printf, m => s.Printf m
  | PrintKind.println, m => s.Println m

/-- Caller-side reconfiguration of one severity's exported sub-logger
field (the doc example does logger.DebugLogger.SetFlags and friends):
replace that field by the result of f, leaving the rest of the Logger
as it was. -/
def Logger.withSubLogger (l : Logger) : Severity → (SubLogger → SubLogger) → Logger
  | Severity.emerg, f => { l with EmergLogger := f l.EmergLogger }
  | Severity.alert, f => { l with AlertLogger := f l.AlertLogger }
  | Severity.crit, f => { l with CritLogger := f l.CritLogger }
  | Severity.error, f => { l with ErrorLogger := f l.ErrorLogger }
  | Severity.warn, f => { l with WarningLogger := f l.WarningLogger }
  | Severity.notice, f => { l with NoticeLogger := f l.NoticeLogger }
  | Severity.info, f => { l with InfoLogger := f l.InfoLogger }
  | Severity.debug, f => { l with DebugLogger := f l.DebugLogger }

/-- One public operation on a held Logger, for reachability statements:
an emission entry point, the LogLevel read, or a SetLogLevel call. -/
inductive Op where
  | emit : Severity → PrintKind → String → Op
  | getLevel : Op
  | setLevel : Int → Op

/-- State left behind by one operation (reads and filtered or delegated
emissions keep the receiver; SetLogLevel may replace the level). -/
def step (l : Logger) : Op → Logger
  | Op.emit s k m => (l.emit s k m).1
  | Op.getLevel => l
  | Op.setLevel lvl => (l.SetLogLevel lvl).2

/-- State after a finite call sequence. -/
def run (l : Logger) (ops : List Op) : Logger :=
  ops.foldl step l

end Twigsnake

namespace Nlog

/-- nlog.LOG_EMERG. -/
def LOG_EMERG : Int := 0

/-- nlog.LOG_ALERT. -/
def LOG_ALERT : Int := 1

/-- nlog.LOG_CRIT. -/
def LOG_CRIT : Int := 2

/-- nlog.LOG_ERROR. -/
def LOG_ERROR : Int := 3

/-- nlog.LOG_WARN. -/
def LOG_WARN : Int := 4

/-- nlog.LOG_NOTICE. -/
def LOG_NOTICE : Int := 5

/-- nlog.LOG_INFO. -/
def LOG_INFO : Int := 6

/-- nlog.LOG_DEBUG. -/
def LOG_DEBUG : Int := 7

/-- nlog.NLog: the second, near-duplicate logger type of the repository,
field for field the same shape as twigsnake.Logger. -/
structure NLog where
  logLevel : Int
  EmergLogger : SubLogger
  AlertLogger : SubLogger
  CritLogger : SubLogger
  ErrorLogger : SubLogger
  WarningLogger : SubLogger
  NoticeLogger : SubLogger
  InfoLogger : SubLogger
  DebugLogger : SubLogger
deriving DecidableEq, Repr

/-- nlog.checkLogLevel: error unless 0 <= lvl <= 7. -/
def checkLogLevel (lvl : Int) : Except String Unit :=
  if ¬ (lvl ≥ 0 ∧ lvl ≤ 7) then
    Except.error "invalid severity level"
  else
    Except.ok ()

/-- The struct literal returned by nlog.New on success. -/
def mkNLog (lvl : Int) (dest : Nat) : NLog :=
  { logLevel := lvl
    EmergLogger := logNew dest "[EMERG] " (Ldate ||| Ltime ||| LmsgPfx)
    AlertLogger := logNew dest "[ALERT] " (Ldate ||| Ltime ||| LmsgPfx)
    CritLogger := logNew dest "[CRIT] " (Ldate ||| Ltime ||| LmsgPfx)
    ErrorLogger := logNew dest "[ERROR] " (Ldate ||| Ltime ||| LmsgPfx)
    WarningLogger := logNew dest "[WARN] " (Ldate ||| Ltime ||| LmsgPfx)
    NoticeLogger := logNew dest "[NOTICE] " (Ldate ||| Ltime ||| LmsgPfx)
    InfoLogger := logNew dest "[INFO] " (Ldate ||| Ltime ||| LmsgPfx)
    DebugLogger := logNew dest "[DEBUG] " (Ldate ||| Ltime ||| LmsgPfx) }

/-- nlog.New: validate the level, then build the NLog. -/
def New (lvl : Int) (dest : Nat) : Except String NLog :=
  match checkLogLevel lvl with
  | Except.error e => Except.error e
  | Except.ok _ => Except.ok (mkNLog lvl dest)

/-- nlog (n NLog).LogLevel: return the current level. -/
def NLog.LogLevel (n : NLog) : Int :=
  n.logLevel

/-- nlog (n NLog).SetLogLevel: validate, then store the level. -/
def NLog.SetLogLevel (n : NLog) (lvl : Int) : Except String Unit × NLog :=
  match checkLogLevel lvl with
  | Except.error e => (Except.error e, n)
  | Except.ok _ => (Except.ok (), { n with logLevel := lvl })

/-- The Int-typed fields the NLog struct actually declares, accessed by
source-level name.  The only Int field of NLog is logLevel; looking up
any other name (in particular the misspelling loglLevel that the source
text of NLog.Errorln reads) resolves to nothing. -/
def NLog.fieldIntVal (n : NLog) (f : String) : Option Int :=
  if f = "logLevel" then some n.logLevel else none

/-- nlog (n NLog).Emerg: unconditional delegation to EmergLogger.Print. -/
def NLog.Emerg (n : NLog) (v : String) : NLog × List Emission :=
  (n, [n.EmergLogger.Print v])

/-- nlog (n NLog).Emergf: unconditional delegation to EmergLogger.Printf. -/
def NLog.Emergf (n : NLog) (v : String) : NLog × List Emission :=
  (n, [n.EmergLogger.Printf v])

/-- nlog (n NLog).Emergln: unconditional delegation to EmergLogger.Println. -/
def NLog.Emergln (n : NLog) (v : String) : NLog × List Emission :=
  (n, [n.EmergLogger.Println v])

/-- nlog (n NLog).Alert. -/
def NLog.Alert (n : NLog) (v : String) : NLog × List Emission :=
  if n.logLevel ≥ LOG_ALERT then (n, [n.AlertLogger.Print v]) else (n, [])

/-- nlog (n NLog).Alertf. -/
def NLog.Alertf (n : NLog) (v : String) : NLog × List Emission :=
  if n.logLevel ≥ LOG_ALERT then (n, [n.AlertLogger.Printf v]) else (n, [])

/-- nlog (n NLog).Alertln. -/
def NLog.Alertln (n : NLog) (v : String) : NLog × List Emission :=
  if n.logLevel ≥ LOG_ALERT then (n, [n.AlertLogger.Println v]) else (n, [])

/-- nlog (n NLog).Crit. -/
def NLog.Crit (n : NLog) (v : String) : NLog × List Emission :=
  if n.logLevel ≥ LOG_CRIT then (n, [n.CritLogger.Print v]) else (n, [])

/-- nlog (n NLog).Critf. -/
def NLog.Critf (n : NLog) (v : String) : NLog × List Emission :=
  if n.logLevel ≥ LOG_CRIT then (n, [n.CritLogger.Printf v]) else (n, [])

/-- nlog (n NLog).Critln. -/
def NLog.Critln (n : NLog) (v : String) : NLog × List Emission :=
  if n.logLevel ≥ LOG_CRIT then (n, [n.CritLogger.Println v]) else (n, [])

/-- nlog (n NLog).Error. -/
def NLog.Error (n : NLog) (v : String) : NLog × List Emission :=
  if n.logLevel ≥ LOG_ERROR then (n, [n.ErrorLogger.Print v]) else (n, [])

/-- nlog (n NLog).Errorf. -/
def NLog.Errorf (n : NLog) (v : String) : NLog × List Emission :=
  if n.logLevel ≥ LOG_ERROR then (n, [n.ErrorLogger.Printf v]) else (n, [])

/-- nlog (n NLog).Errorln as the source writes it: the guard reads the
field named loglLevel.  NLog declares no such field, so the guard has no
value to compare and the method has no defined behavior (as Go source it
does not even compile); the field lookup is made explicit through
fieldIntVal, and the missing field surfaces as none. -/
def NLog.Errorln (n : NLog) (v : String) : Option (NLog × List Emission) :=
  (n.fieldIntVal "loglLevel").map fun lvl =>
    if lvl ≥ LOG_ERROR then (n, [n.ErrorLogger.Println v]) else (n, [])

/-- nlog (n NLog).Warn. -/
def NLog.Warn (n : NLog) (v : String) : NLog × List Emission :=
  if n.logLevel ≥ LOG_WARN then (n, [n.WarningLogger.Print v]) else (n, [])

/-- nlog (n NLog).Warnf. -/
def NLog.Warnf (n : NLog) (v : String) : NLog × List Emission :=
  if n.logLevel ≥ LOG_WARN then (n, [n.WarningLogger.Printf v]) else (n, [])

/-- nlog (n NLog).Warnln. -/
def NLog.Warnln (n : NLog) (v : String) : NLog × List Emission :=
  if n.logLevel ≥ LOG_WARN then (n, [n.WarningLogger.Println v]) else (n, [])

/-- nlog (n NLog).Notice. -/
def NLog.Notice (n : NLog) (v : String) : NLog × List Emission :=
  if n.logLevel ≥ LOG_NOTICE then (n, [n.NoticeLogger.Print v]) else (n, [])

/-- nlog (n NLog).Noticef. -/
def NLog.Noticef (n : NLog) (v : String) : NLog × List Emission :=
  if n.logLevel ≥ LOG_NOTICE then (n, [n.NoticeLogger.Printf v]) else (n, [])

/-- nlog (n NLog).Noticeln. -/
def NLog.Noticeln (n : NLog) (v : String) : NLog × List Emission :=
  if n.logLevel ≥ LOG_NOTICE then (n, [n.NoticeLogger.Println v]) else (n, [])

/-- nlog (n NLog).Info. -/
def NLog.Info (n : NLog) (v : String) : NLog × List Emission :=
  if n.logLevel ≥ LOG_INFO then (n, [n.InfoLogger.Print v]) else (n, [])

/-- nlog (n NLog).Infof. -/
def NLog.Infof (n : NLog) (v : String) : NLog × List Emission :=
  if n.logLevel ≥ LOG_INFO then (n, [n.InfoLogger.Printf v]) else (n, [])

/-- nlog (n NLog).Infoln. -/
def NLog.Infoln (n : NLog) (v : String) : NLog × List Emission :=
  if n.logLevel ≥ LOG_INFO then (n, [n.InfoLogger.Println v]) else (n, [])

/-- nlog (n NLog).Debug. -/
def NLog.Debug (n : NLog) (v : String) : NLog × List Emission :=
  if n.logLevel ≥ LOG_DEBUG then (n, [n.DebugLogger.Print v]) else (n, [])

/-- nlog (n NLog).Debugf. -/
def NLog.Debugf (n : NLog) (v : String) : NLog × List Emission :=
  if n.logLevel ≥ LOG_DEBUG then (n, [n.DebugLogger.Printf v]) else (n, [])

/-- nlog (n NLog).Debugln. -/
def NLog.Debugln (n : NLog) (v : String) : NLog × List Emission :=
  if n.logLevel ≥ LOG_DEBUG then (n, [n.DebugLogger.Println v]) else (n, [])

/-- Dispatch table over the 24 emission entry points of nlog.NLog.
Twenty-three of them are total; Errorln is the one whose body reads a
field NLog does not have, so the dispatch result is an Option. -/
def NLog.emit (n : NLog) : Severity → PrintKind → String → Option (NLog × List Emission)
  | Severity.emerg, PrintKind.print, m => some (n.Emerg m)
  | Severity.emerg, PrintKind.printf, m => some (n.Emergf m)
  | Severity.emerg, PrintKind.println, m => some (n.Emergln m)
  | Severity.alert, PrintKind.print, m => some (n.Alert m)
  | Severity.alert, PrintKind.printf, m => some (n.Alertf m)
  | Severity.alert, PrintKind.println, m => some (n.Alertln m)
  | Severity.crit, PrintKind.print, m => some (n.Crit m)
  | Severity.crit, PrintKind.printf, m => some (n.Critf m)
  | Severity.crit, PrintKind.println, m => some (n.Critln m)
  | Severity.error, PrintKind.print, m => some (n.Error m)
  | Severity.error, PrintKind.printf, m => some (n.Errorf m)
  | Severity.error, PrintKind.println, m => n.Errorln m
  | Severity.warn, PrintKind.print, m => some (n.Warn m)
  | Severity.warn, PrintKind.printf, m => some (n.Warnf m)
  | Severity.warn, PrintKind.println, m => some (n.Warnln m)
  | Severity.notice, PrintKind.print, m => some (n.Notice m)
  | Severity.notice, PrintKind.printf, m => some (n.Noticef m)
  | Severity.notice, PrintKind.println, m => some (n.Noticeln m)
  | Severity.info, PrintKind.print, m => some (n.Info m)
  | Severity.info, PrintKind.printf, m => some (n.Infof m)
  | Severity.info, PrintKind.println, m => some (n.Infoln m)
  | Severity.debug, PrintKind.print, m => some (n.Debug m)
  | Severity.debug, PrintKind.printf, m => some (n.Debugf m)
  | Severity.debug, PrintKind.println, m => some (n.Debugln m)

/-- Field-for-field identification of the two isomorphic logger structs,
used to state that corresponding operations applied to the same state
behave the same. -/
def ofLogger (l : Twigsnake.Logger) : NLog :=
  { logLevel := l.logLevel
    EmergLogger := l.EmergLogger
    AlertLogger := l.AlertLogger
    CritLogger := l.CritLogger
    ErrorLogger := l.ErrorLogger
    WarningLogger := l.WarningLogger
    NoticeLogger := l.NoticeLogger
    InfoLogger := l.InfoLogger
    DebugLogger := l.DebugLogger }

end Nlog

/-- Unfolding lemma: twigsnake.checkLogLevel as a positive range test. -/
theorem checkLogLevel_ite (lvl : Int) :
    Twigsnake.checkLogLevel lvl =
      if 0 ≤ lvl ∧ lvl ≤ 7 then Except.ok () else Except.error "invalid severity level" := by
  unfold Twigsnake.checkLogLevel
  split_ifs <;> rfl

/-- Unfolding lemma: twigsnake SetLogLevel as a range-guarded update. -/
theorem setLogLevel_ite (l : Twigsnake.Logger) (lvl : Int) :
    l.SetLogLevel lvl =
      if 0 ≤ lvl ∧ lvl ≤ 7 then (Except.ok (), { l with logLevel := lvl })
      else (Except.error "invalid severity level", l) := by
  unfold Twigsnake.Logger.SetLogLevel
  rw [checkLogLevel_ite]
  split_ifs <;> rfl

/-- Unfolding lemma: twigsnake New as a range-guarded construction. -/
theorem new_ite (lvl : Int) (dest : Nat) :
    Twigsnake.New lvl dest =
      if 0 ≤ lvl ∧ lvl ≤ 7 then Except.ok (Twigsnake.mkLogger lvl dest)
      else Except.error "invalid severity level" := by
  unfold Twigsnake.New
  rw [checkLogLevel_ite]
  split_ifs <;> rfl

/-- Inversion of a successful twigsnake New call: the level was in range
and the result is the canonical struct literal. -/
theorem new_ok_inv (lvl : Int) (dest : Nat) (l : Twigsnake.Logger)
    (h : Twigsnake.New lvl dest = Except.ok l) :
    (0 ≤ lvl ∧ lvl ≤ 7) ∧ l = Twigsnake.mkLogger lvl dest := by
  rw [new_ite] at h
  split_ifs at h with hv
  refine ⟨hv, ?_⟩
  injection h with h
  exact h.symm

/-- Every emission method hands back its receiver unchanged. -/
theorem emit_state_id (l : Twigsnake.Logger) (S : Severity) (k : PrintKind) (m : String) :
    (l.emit S k m).1 = l := by
  cases S <;> cases k <;>
      simp only [Twigsnake.Logger.emit, Twigsnake.Logger.Emerg, Twigsnake.Logger.Emergf,
        Twigsnake.Logger.Emergln, Twigsnake.Logger.Alert, Twigsnake.Logger.Alertf,
        Twigsnake.Logger.Alertln, Twigsnake.Logger.Crit, Twigsnake.Logger.Critf,
        Twigsnake.Logger.Critln, Twigsnake.Logger.Error, Twigsnake.Logger.Errorf,
        Twigsnake.Logger.Errorln, Twigsnake.Logger.Warn, Twigsnake.Logger.Warnf,
        Twigsnake.Logger.Warnln, Twigsnake.Logger.Notice, Twigsnake.Logger.Noticef,
        Twigsnake.Logger.Noticeln, Twigsnake.Logger.Info, Twigsnake.Logger.Infof,
        Twigsnake.Logger.Infoln, Twigsnake.Logger.Debug, Twigsnake.Logger.Debugf,
        Twigsnake.Logger.Debugln] <;>
    first
      | rfl
      | (split <;> rfl)

/-- Emission output, characterised: when the threshold is nonnegative
(every reachable threshold is), each of the 24 entry points emits exactly
one delegated write when sevRank S <= logLevel and nothing otherwise. -/
theorem emit_out_eq (l : Twigsnake.Logger) (S : Severity) (k : PrintKind) (m : String)
    (h0 : 0 ≤ l.logLevel) :
    (l.emit S k m).2 =
      if Twigsnake.sevRank S ≤ l.logLevel
      then [Twigsnake.printAs (l.subLoggerFor S) k m]
      else [] := by
  cases S <;> cases k <;>
      simp only [Twigsnake.Logger.emit, Twigsnake.Logger.Emerg, Twigsnake.Logger.Emergf,
        Twigsnake.Logger.Emergln, Twigsnake.Logger.Alert, Twigsnake.Logger.Alertf,
        Twigsnake.Logger.Alertln, Twigsnake.Logger.Crit, Twigsnake.Logger.Critf,
        Twigsnake.Logger.Critln, Twigsnake.Logger.Error, Twigsnake.Logger.Errorf,
        Twigsnake.Logger.Errorln, Twigsnake.Logger.Warn, Twigsnake.Logger.Warnf,
        Twigsnake.Logger.Warnln, Twigsnake.Logger.Notice, Twigsnake.Logger.Noticef,
        Twigsnake.Logger.Noticeln, Twigsnake.Logger.Info, Twigsnake.Logger.Infof,
        Twigsnake.Logger.Infoln, Twigsnake.Logger.Debug, Twigsnake.Logger.Debugf,
        Twigsnake.Logger.Debugln, Twigsnake.sevRank, Twigsnake.printAs,
        Twigsnake.Logger.subLoggerFor, Twigsnake.LOG_EMERG, Twigsnake.LOG_ALERT,
        Twigsnake.LOG_CRIT, Twigsnake.LOG_ERROR, Twigsnake.LOG_WARN, Twigsnake.LOG_NOTICE,
        Twigsnake.LOG_INFO, Twigsnake.LOG_DEBUG, ge_iff_le] <;>
    split_ifs <;> rfl

/-- Emission output depends only on the threshold and on that severity's
own sub-logger. -/
theorem emit_out_congr (a b : Twigsnake.Logger) (S : Severity) (k : PrintKind) (m : String)
    (hl : a.logLevel = b.logLevel) (hs : a.subLoggerFor S = b.subLoggerFor S) :
    (a.emit S k m).2 = (b.emit S k m).2 := by
  cases S <;> cases k <;>
      simp only [Twigsnake.Logger.subLoggerFor] at hs <;>
      simp only [Twigsnake.Logger.emit, Twigsnake.Logger.Emerg, Twigsnake.Logger.Emergf,
        Twigsnake.Logger.Emergln, Twigsnake.Logger.Alert, Twigsnake.Logger.Alertf,
        Twigsnake.Logger.Alertln, Twigsnake.Logger.Crit, Twigsnake.Logger.Critf,
        Twigsnake.Logger.Critln, Twigsnake.Logger.Error, Twigsnake.Logger.Errorf,
        Twigsnake.Logger.Errorln, Twigsnake.Logger.Warn, Twigsnake.Logger.Warnf,
        Twigsnake.Logger.Warnln, Twigsnake.Logger.Notice, Twigsnake.Logger.Noticef,
        Twigsnake.Logger.Noticeln, Twigsnake.Logger.Info, Twigsnake.Logger.Infof,
        Twigsnake.Logger.Infoln, Twigsnake.Logger.Debug, Twigsnake.Logger.Debugf,
        Twigsnake.Logger.Debugln, hl, hs] <;>
    first
      | rfl
      | (split_ifs <;> rfl)

/-- Reconfiguring one severity's sub-logger never touches the threshold. -/
theorem withSubLogger_logLevel (l : Twigsnake.Logger) (s : Severity)
    (f : SubLogger → SubLogger) :
    (l.withSubLogger s f).logLevel = l.logLevel := by
  cases s <;> rfl

/-- Reconfiguring one severity's sub-logger leaves every other severity's
sub-logger field untouched. -/
theorem withSubLogger_other (l : Twigsnake.Logger) (s t : Severity)
    (f : SubLogger → SubLogger) (h : t ≠ s) :
    (l.withSubLogger s f).subLoggerFor t = l.subLoggerFor t := by
  cases s <;> cases t <;>
    first
      | exact absurd rfl h
      | rfl

/-- One public operation keeps the threshold inside [0, 7]. -/
theorem step_range (l : Twigsnake.Logger) (op : Twigsnake.Op)
    (h0 : 0 ≤ l.logLevel) (h7 : l.logLevel ≤ 7) :
    0 ≤ (Twigsnake.step l op).logLevel ∧ (Twigsnake.step l op).logLevel ≤ 7 := by
  cases op with
  | emit S k m =>
      simp only [Twigsnake.step, emit_state_id]
      exact ⟨h0, h7⟩
  | getLevel =>
      exact ⟨h0, h7⟩
  | setLevel lvl =>
      simp only [Twigsnake.step, setLogLevel_ite]
      split_ifs with hv
      · simpa using hv
      · exact ⟨h0, h7⟩

/-- Any finite call sequence keeps the threshold inside [0, 7]. -/
theorem run_range (ops : List Twigsnake.Op) :
    ∀ l : Twigsnake.Logger, 0 ≤ l.logLevel → l.logLevel ≤ 7 →
      0 ≤ (Twigsnake.run l ops).logLevel ∧ (Twigsnake.run l ops).logLevel ≤ 7 := by
  induction ops with
  | nil =>
      intro l h0 h7
      exact ⟨h0, h7⟩
  | cons op rest ih =>
      intro l h0 h7
      have h := step_range l op h0 h7
      simpa [Twigsnake.run, List.foldl] using ih (Twigsnake.step l op) h.1 h.2

/-- C1: for a logger holding a valid threshold T in [0, 7], an emission
call at severity S (any of the three variants) delegates to that
severity's sub-logger print operation, i.e. one message appears in the
output, if and only if T >= S under numeric rank comparison; and when it
appears it is exactly the delegated write. -/
theorem twigsnake_emission_iff_threshold (l : Twigsnake.Logger) (S : Severity)
    (k : PrintKind) (m : String) (h0 : 0 ≤ l.logLevel) (h7 : l.logLevel ≤ 7) :
    (((l.emit S k m).2 ≠ []) ↔ Twigsnake.sevRank S ≤ l.logLevel) ∧
    (Twigsnake.sevRank S ≤ l.logLevel →
      (l.emit S k m).2 = [Twigsnake.printAs (l.subLoggerFor S) k m]) := by
  rw [emit_out_eq l S k m h0]
  constructor
  · split_ifs with h <;> simp [h]
  · intro h
    rw [if_pos h]

/-- Witness for C1: threshold error(3), severity alert(1), plain variant. -/
theorem twigsnake_emission_iff_threshold_witness :
    (((Twigsnake.mkLogger 3 0).emit Severity.alert PrintKind.print "x").2 ≠ []) ↔
      Twigsnake.sevRank Severity.alert ≤ (Twigsnake.mkLogger 3 0).logLevel :=
  (twigsnake_emission_iff_threshold (Twigsnake.mkLogger 3 0) Severity.alert
    PrintKind.print "x" (by decide) (by decide)).1

/-- C2: SetLogLevel fails with the invalid-severity error exactly for
values outside [0, 7]; on failure the receiver, hence the observable
threshold, is unchanged; on success LogLevel reads the new value and
every subsequent emission call filters against it immediately. -/
theorem twigsnake_setLogLevel_spec (l : Twigsnake.Logger) (lvl : Int) :
    (((l.SetLogLevel lvl).1 = Except.error "invalid severity level") ↔
        ¬(0 ≤ lvl ∧ lvl ≤ 7)) ∧
    (¬(0 ≤ lvl ∧ lvl ≤ 7) →
      (l.SetLogLevel lvl).2 = l ∧ ((l.SetLogLevel lvl).2).LogLevel = l.LogLevel) ∧
    ((0 ≤ lvl ∧ lvl ≤ 7) →
      (l.SetLogLevel lvl).1 = Except.ok () ∧
      ((l.SetLogLevel lvl).2).LogLevel = lvl ∧
      ∀ S k m, (((l.SetLogLevel lvl).2).emit S k m).2 =
        if Twigsnake.sevRank S ≤ lvl
        then [Twigsnake.printAs (((l.SetLogLevel lvl).2).subLoggerFor S) k m]
        else []) := by
  rw [setLogLevel_ite]
  split_ifs with hv
  · refine ⟨by simp [hv], fun h => absurd hv h, fun _ => ⟨rfl, rfl, fun S k m => ?_⟩⟩
    simpa using emit_out_eq { l with logLevel := lvl } S k m hv.1
  · exact ⟨by simp [hv], fun _ => ⟨rfl, rfl⟩, fun h => absurd h hv⟩

/-- Witness for C2: a rejected SetLogLevel(9) leaves the logger intact. -/
theorem twigsnake_setLogLevel_spec_witness :
    ((Twigsnake.mkLogger 3 0).SetLogLevel 9).2 = Twigsnake.mkLogger 3 0 ∧
    (((Twigsnake.mkLogger 3 0).SetLogLevel 9).2).LogLevel =
      (Twigsnake.mkLogger 3 0).LogLevel :=
  (twigsnake_setLogLevel_spec (Twigsnake.mkLogger 3 0) 9).2.1 (by decide)

/-- C3: New yields a logger exactly for levels in [0, 7]; outside that
range it returns the invalid-severity error and no object; a fresh
logger's LogLevel is the caller-supplied level. -/
theorem twigsnake_new_spec (lvl : Int) (dest : Nat) :
    ((∃ l, Twigsnake.New lvl dest = Except.ok l) ↔ (0 ≤ lvl ∧ lvl ≤ 7)) ∧
    (¬(0 ≤ lvl ∧ lvl ≤ 7) →
      Twigsnake.New lvl dest = Except.error "invalid severity level") ∧
    (∀ l, Twigsnake.New lvl dest = Except.ok l → Twigsnake.Logger.LogLevel l = lvl) := by
  rw [new_ite]
  split_ifs with hv
  · refine ⟨by simp [hv], fun h => absurd hv h, fun l h => ?_⟩
    injection h with h
    rw [← h]
    rfl
  · refine ⟨by simp [hv], fun _ => rfl, fun l h => ?_⟩
    exact h.elim

/-- Witness for C3: New(9) is rejected; a logger built at level 3 reads
back level 3. -/
theorem twigsnake_new_spec_witness :
    Twigsnake.New 9 0 = Except.error "invalid severity level" ∧
    Twigsnake.Logger.LogLevel (Twigsnake.mkLogger 3 0) = 3 :=
  ⟨(twigsnake_new_spec 9 0).2.1 (by decide),
    (twigsnake_new_spec 3 0).2.2 (Twigsnake.mkLogger 3 0) (by rfl)⟩

/-- C4: on a logger with any valid threshold, each emergency emission
variant delegates to EmergLogger unconditionally and always produces
output. -/
theorem twigsnake_emerg_always (l : Twigsnake.Logger)
    (h0 : 0 ≤ l.logLevel) (h7 : l.logLevel ≤ 7) (m : String) :
    (l.Emerg m).2 = [l.EmergLogger.Print m] ∧ (l.Emerg m).2 ≠ [] ∧
    (l.Emergf m).2 = [l.EmergLogger.Printf m] ∧ (l.Emergf m).2 ≠ [] ∧
    (l.Emergln m).2 = [l.EmergLogger.Println m] ∧ (l.Emergln m).2 ≠ [] := by
  exact ⟨rfl, by simp [Twigsnake.Logger.Emerg], rfl, by simp [Twigsnake.Logger.Emergf],
    rfl, by simp [Twigsnake.Logger.Emergln]⟩

/-- Witness for C4: even at the most restrictive threshold, emerg(0),
the emergency path produces output. -/
theorem twigsnake_emerg_always_witness :
    ((Twigsnake.mkLogger 0 0).Emerg "m").2 =
      [(Twigsnake.mkLogger 0 0).EmergLogger.Print "m"] :=
  (twigsnake_emerg_always (Twigsnake.mkLogger 0 0) (by decide) (by decide) "m").1

/-- C5: the intended duplication breaks at exactly one entry point.  On
the other 23 emission entry points the two logger types, applied to the
same state and arguments, give the same output decision and the same
final state; but nlog's Errorln guards on the field named loglLevel,
which NLog does not declare, so it has no defined behavior, while
twigsnake's Errorln emits normally (shown concretely at threshold
error(3), where the twigsnake copy prints and the nlog copy is
undefined). -/
theorem nlog_errorln_defect :
    (∀ (l : Twigsnake.Logger) (S : Severity) (k : PrintKind) (m : String),
        ¬(S = Severity.error ∧ k = PrintKind.println) →
        Nlog.NLog.emit (Nlog.ofLogger l) S k m =
          some (Nlog.ofLogger (l.emit S k m).1, (l.emit S k m).2)) ∧
    (∀ (n : Nlog.NLog) (m : String), Nlog.NLog.Errorln n m = none) ∧
    ((Twigsnake.Logger.emit (Twigsnake.mkLogger 3 0) Severity.error PrintKind.println
        "e").2 =
      [SubLogger.Println (logNew 0 "[ERROR] " (Ldate ||| Ltime ||| LmsgPfx)) "e"]) ∧
    Nlog.NLog.emit (Nlog.ofLogger (Twigsnake.mkLogger 3 0)) Severity.error
        PrintKind.println "e" = none := by
  refine ⟨?_, ?_, ?_, ?_⟩
  · intro l S k m h
    cases S <;> cases k <;>
      first
        | (simp only [Nlog.NLog.emit, Twigsnake.Logger.emit, Nlog.ofLogger,
            Nlog.NLog.Emerg, Nlog.NLog.Emergf, Nlog.NLog.Emergln, Nlog.NLog.Alert,
            Nlog.NLog.Alertf, Nlog.NLog.Alertln, Nlog.NLog.Crit, Nlog.NLog.Critf,
            Nlog.NLog.Critln, Nlog.NLog.Error, Nlog.NLog.Errorf, Nlog.NLog.Warn,
            Nlog.NLog.Warnf, Nlog.NLog.Warnln, Nlog.NLog.Notice, Nlog.NLog.Noticef,
            Nlog.NLog.Noticeln, Nlog.NLog.Info, Nlog.NLog.Infof, Nlog.NLog.Infoln,
            Nlog.NLog.Debug, Nlog.NLog.Debugf, Nlog.NLog.Debugln,
            Twigsnake.Logger.Emerg, Twigsnake.Logger.Emergf, Twigsnake.Logger.Emergln,
            Twigsnake.Logger.Alert, Twigsnake.Logger.Alertf, Twigsnake.Logger.Alertln,
            Twigsnake.Logger.Crit, Twigsnake.Logger.Critf, Twigsnake.Logger.Critln,
            Twigsnake.Logger.Error, Twigsnake.Logger.Errorf, Twigsnake.Logger.Errorln,
            Twigsnake.Logger.Warn, Twigsnake.Logger.Warnf, Twigsnake.Logger.Warnln,
            Twigsnake.Logger.Notice, Twigsnake.Logger.Noticef, Twigsnake.Logger.Noticeln,
            Twigsnake.Logger.Info, Twigsnake.Logger.Infof, Twigsnake.Logger.Infoln,
            Twigsnake.Logger.Debug, Twigsnake.Logger.Debugf, Twigsnake.Logger.Debugln,
            Nlog.LOG_EMERG, Nlog.LOG_ALERT, Nlog.LOG_CRIT, Nlog.LOG_ERROR,
            Nlog.LOG_WARN, Nlog.LOG_NOTICE, Nlog.LOG_INFO, Nlog.LOG_DEBUG,
            Twigsnake.LOG_EMERG, Twigsnake.LOG_ALERT, Twigsnake.LOG_CRIT,
            Twigsnake.LOG_ERROR, Twigsnake.LOG_WARN, Twigsnake.LOG_NOTICE,
            Twigsnake.LOG_INFO, Twigsnake.LOG_DEBUG] <;>
          first
            | rfl
            | (split_ifs <;> rfl))
        | exact absurd (And.intro rfl rfl) h
  · intro n m
    rfl
  · rfl
  · rfl

/-- Witness for C5 at a concrete non-defective entry point. -/
theorem nlog_errorln_defect_witness :
    Nlog.NLog.emit (Nlog.ofLogger (Twigsnake.mkLogger 3 0)) Severity.debug
        PrintKind.print "d" =
      some (Nlog.ofLogger
          ((Twigsnake.mkLogger 3 0).emit Severity.debug PrintKind.print "d").1,
        ((Twigsnake.mkLogger 3 0).emit Severity.debug PrintKind.print "d").2) :=
  nlog_errorln_defect.1 (Twigsnake.mkLogger 3 0) Severity.debug PrintKind.print "d"
    (by decide)

/-- C6: a successful New binds each of the eight sub-loggers to the
supplied destination, gives it exactly its bracketed severity prefix with
the trailing space, and configures it with the default flag set
Ldate, Ltime and Lmsgprefix. -/
theorem twigsnake_new_sublogger_config (lvl : Int) (dest : Nat) (l : Twigsnake.Logger)
    (h : Twigsnake.New lvl dest = Except.ok l) :
    l.EmergLogger = logNew dest "[EMERG] " (Ldate ||| Ltime ||| LmsgPfx) ∧
    l.AlertLogger = logNew dest "[ALERT] " (Ldate ||| Ltime ||| LmsgPfx) ∧
    l.CritLogger = logNew dest "[CRIT] " (Ldate ||| Ltime ||| LmsgPfx) ∧
    l.ErrorLogger = logNew dest "[ERROR] " (Ldate ||| Ltime ||| LmsgPfx) ∧
    l.WarningLogger = logNew dest "[WARN] " (Ldate ||| Ltime ||| LmsgPfx) ∧
    l.NoticeLogger = logNew dest "[NOTICE] " (Ldate ||| Ltime ||| LmsgPfx) ∧
    l.InfoLogger = logNew dest "[INFO] " (Ldate ||| Ltime ||| LmsgPfx) ∧
    l.DebugLogger = logNew dest "[DEBUG] " (Ldate ||| Ltime ||| LmsgPfx) := by
  obtain ⟨-, rfl⟩ := new_ok_inv lvl dest l h
  exact ⟨rfl, rfl, rfl, rfl, rfl, rfl, rfl, rfl⟩

/-- Witness for C6 on a logger freshly built at level 3 over writer 5. -/
theorem twigsnake_new_sublogger_config_witness :
    (Twigsnake.mkLogger 3 5).DebugLogger =
      logNew 5 "[DEBUG] " (Ldate ||| Ltime ||| LmsgPfx) :=
  (twigsnake_new_sublogger_config 3 5 (Twigsnake.mkLogger 3 5) (by rfl)).2.2.2.2.2.2.2

/-- C7: SetLogLevel applied twice in succession with the same valid T
returns the same result and leaves the same observable state, threshold
and all sub-logger configuration included, as applying it once. -/
theorem twigsnake_setLogLevel_idempotent (l : Twigsnake.Logger) (T : Int)
    (h0 : 0 ≤ T) (h7 : T ≤ 7) :
    ((l.SetLogLevel T).2).SetLogLevel T = l.SetLogLevel T := by
  have hv : 0 ≤ T ∧ T ≤ 7 := ⟨h0, h7⟩
  simp [setLogLevel_ite, hv]

/-- Witness for C7 at T = 5 on a logger built at level 3. -/
theorem twigsnake_setLogLevel_idempotent_witness :
    (((Twigsnake.mkLogger 3 0).SetLogLevel 5).2).SetLogLevel 5 =
      (Twigsnake.mkLogger 3 0).SetLogLevel 5 :=
  twigsnake_setLogLevel_idempotent (Twigsnake.mkLogger 3 0) 5 (by decide) (by decide)

/-- C8: reconfiguring one severity's sub-logger, by any transformation of
its destination, prefix or flags, leaves every other severity's
sub-logger handle and the threshold untouched, and leaves every other
severity's emission output unchanged. -/
theorem twigsnake_sublogger_isolation (l : Twigsnake.Logger) (s t : Severity)
    (f : SubLogger → SubLogger) (h : t ≠ s) (k : PrintKind) (m : String) :
    (l.withSubLogger s f).subLoggerFor t = l.subLoggerFor t ∧
    (l.withSubLogger s f).logLevel = l.logLevel ∧
    ((l.withSubLogger s f).emit t k m).2 = (l.emit t k m).2 := by
  refine ⟨withSubLogger_other l s t f h, withSubLogger_logLevel l s f, ?_⟩
  exact emit_out_congr _ _ t k m (withSubLogger_logLevel l s f)
    (withSubLogger_other l s t f h)

/-- Witness for C8: redirecting the debug sub-logger does not change the
info output. -/
theorem twigsnake_sublogger_isolation_witness :
    (((Twigsnake.mkLogger 7 0).withSubLogger Severity.debug
        (fun s => s.SetOutput 9)).emit Severity.info PrintKind.print "x").2 =
      ((Twigsnake.mkLogger 7 0).emit Severity.info PrintKind.print "x").2 :=
  (twigsnake_sublogger_isolation (Twigsnake.mkLogger 7 0) Severity.debug Severity.info
    (fun s => s.SetOutput 9) (by decide) PrintKind.print "x").2.2

/-- C9: LogLevel is a pure read of the stored threshold, and every one of
the 24 emission entry points hands back the receiver, threshold and all
eight sub-logger handles included, unchanged. -/
theorem twigsnake_emission_frame (l : Twigsnake.Logger) :
    Twigsnake.Logger.LogLevel l = l.logLevel ∧
    ∀ S k m, (l.emit S k m).1 = l :=
  ⟨rfl, fun S k m => emit_state_id l S k m⟩

/-- C10: from any successfully constructed logger, every finite sequence
of emissions, LogLevel reads and SetLogLevel calls, accepted or rejected,
keeps the stored threshold inside the closed range [0, 7]. -/
theorem twigsnake_threshold_invariant (lvl : Int) (dest : Nat) (l : Twigsnake.Logger)
    (h : Twigsnake.New lvl dest = Except.ok l) (ops : List Twigsnake.Op) :
    0 ≤ (Twigsnake.run l ops).logLevel ∧ (Twigsnake.run l ops).logLevel ≤ 7 := by
  obtain ⟨hv, rfl⟩ := new_ok_inv lvl dest l h
  exact run_range ops (Twigsnake.mkLogger lvl dest) hv.1 hv.2

/-- Witness for C10: a rejected SetLogLevel(9) followed by a debug
emission keeps the threshold in range. -/
theorem twigsnake_threshold_invariant_witness :
    0 ≤ (Twigsnake.run (Twigsnake.mkLogger 3 0)
        [Twigsnake.Op.setLevel 9,
          Twigsnake.Op.emit Severity.debug PrintKind.print "d"]).logLevel ∧
      (Twigsnake.run (Twigsnake.mkLogger 3 0)
        [Twigsnake.Op.setLevel 9,
          Twigsnake.Op.emit Severity.debug PrintKind.print "d"]).logLevel ≤ 7 :=
  twigsnake_threshold_invariant 3 0 (Twigsnake.mkLogger 3 0) (by rfl)
    [Twigsnake.Op.setLevel 9, Twigsnake.Op.emit Severity.debug PrintKind.print "d"]
